import Mathlib

/-!
Verification of the "Mystic Reader" tarot app (src/src/App.tsx).

The component `App` keeps six pieces of React state (question, numCards,
cardNames, reading, isLoading, error) and exposes three handlers:
`handleNumCardsChange`, `handleCardNameChange` and `generateReading`
(the submit action).  We embed the state as a structure, the handlers as
pure state transformers, and the submit action as a function of the
state, the configured API key and the outcome of the single network
call.  The outcome of `openai.chat.completions.create` is modelled by
`Outcome`: either a thrown error, or a completion whose
`choices[0]?.message?.content` is an optional string.
-/

namespace TarotApp

/-- The React state of `App` (App.tsx lines 10-15). -/
structure AppState where
  question : String
  numCards : Nat
  cardNames : List String
  reading : String
  isLoading : Bool
  error : String
deriving Repr, DecidableEq

/-- Initial values of the six `useState` hooks (App.tsx lines 10-15). -/
def initialState : AppState :=
  { question := ""
    numCards := 1
    cardNames := [""]
    reading := ""
    isLoading := false
    error := "" }

/-- JavaScript `String.prototype.trim`: removes whitespace from both ends
of the string (defined structurally on the character list so that it is
evaluable by the kernel). -/
def jsTrim (s : String) : String :=
  String.mk (((s.data.dropWhile Char.isWhitespace).reverse.dropWhile
    Char.isWhitespace).reverse)

/-- JavaScript `v || ''` on an optional string: the empty string and a
missing value are falsy and yield `''`; any other string is returned. -/
def jsOrEmpty : Option String → String
  | some s => if s = "" then "" else s
  | none => ""

/-- The `onChange` handler of the question textarea: `setQuestion`. -/
def setQuestion (s : AppState) (q : String) : AppState :=
  { s with question := q }

/-- `handleNumCardsChange` (App.tsx lines 17-21):
`Array(num).fill('').map((_, index) => cardNames[index] || '')`. -/
def handleNumCardsChange (s : AppState) (num : Nat) : AppState :=
  { s with
    numCards := num
    cardNames := (List.range num).map (fun index => jsOrEmpty s.cardNames[index]?) }

/-- `handleCardNameChange` (App.tsx lines 23-27): copies the list and
assigns entry `index`.  For a valid index (the only way the UI calls it)
the JavaScript assignment agrees with `List.set`. -/
def handleCardNameChange (s : AppState) (index : Nat) (name : String) : AppState :=
  { s with cardNames := s.cardNames.set index name }

/-- Validation message for an empty (trimmed) question (App.tsx line 31). -/
def questionError : String := "Please enter your question or situation."

/-- Validation message when no card name survives trimming (App.tsx line 37). -/
def cardsError : String := "Please enter at least one card name."

/-- Configuration message for a missing API key (App.tsx line 43). -/
def apiKeyError : String :=
  "OpenAI API key not configured. Please add your API key to the environment variables."

/-- Message stored by the `catch` branch (App.tsx line 100). -/
def serviceError : String :=
  "Failed to generate reading. Please check your API key and try again."

/-- Fallback shown when the completion content is empty or missing (App.tsx line 97). -/
def fallbackReading : String := "Unable to generate reading. Please try again."

/-- The fixed system message of the chat request (App.tsx lines 86-88). -/
def systemMessage : String :=
  "You are an experienced, compassionate tarot reader with deep knowledge of tarot symbolism and interpretation. Provide thoughtful, insightful readings that help people reflect on their situations and find guidance."

/-- `cardNames.filter(name => name.trim())` (App.tsx line 35): the card
names whose trimmed text is non-empty, in their original order. -/
def filledCards (cardNames : List String) : List String :=
  cardNames.filter (fun name => jsTrim name != "")

/-- `filledCards.map((card, index) => `${index + 1}. ${card}`).join('\n')`
(App.tsx line 61). -/
def cardLines (filled : List String) : String :=
  String.intercalate "\n" (filled.enum.map (fun p => toString (p.1 + 1) ++ ". " ++ p.2))

/-- The prompt template of App.tsx lines 56-80, with the question and the
filtered card names interpolated.  The `ğŸ...` escapes are the
literal (mojibake) characters present in the source file. -/
def mkPrompt (question : String) (filled : List String) : String :=
  "As an experienced tarot reader, please provide an insightful interpretation for this reading:\n\nQuestion/Situation: \"" ++
  question ++
  "\"\n\nCards drawn (" ++ toString filled.length ++ " cards):\n" ++
  cardLines filled ++
  "\n\nPlease provide a thoughtful, compassionate interpretation that addresses the question and explains how each card relates to the situation. Include practical guidance and insights.\n\nFormat your response with these sections using markdown:\n# ğŸŒŸ Your Tarot Reading\n## ğŸ“ Your Question\n## ğŸƒ Cards Drawn\n## âœ¨ Overall Energy & Theme\n## ğŸ”® Individual Card Interpretations\n### Card 1: [Card Name]\n**Position Meaning**: [meaning]\n**Interpretation**: [detailed interpretation]\n**Key Messages**: \n- [message 1]\n- [message 2]\n- [message 3]\n## ğŸŒ™ Synthesis & Overall Guidance\n## ğŸ’« Practical Next Steps\n## ğŸ™ Final Thoughts"

/-- One request to `openai.chat.completions.create` (App.tsx lines 81-94):
a fixed model, the fixed system message, the user prompt, a token limit
and a sampling temperature (0.7, modelled as the rational 7/10). -/
structure ChatRequest where
  model : String
  systemContent : String
  userContent : String
  maxTokens : Nat
  temperature : ℚ
deriving Repr, DecidableEq

/-- The request built for a given prompt (App.tsx lines 81-94). -/
def mkRequest (prompt : String) : ChatRequest :=
  { model := "gpt-4"
    systemContent := systemMessage
    userContent := prompt
    maxTokens := 2000
    temperature := 7 / 10 }

/-- Outcome of the awaited network call: the promise rejects (`failure`),
or it resolves with `choices[0]?.message?.content` being the given
optional string (`none` models a missing/null content). -/
inductive Outcome where
  | failure : Outcome
  | success : Option String → Outcome
deriving Repr, DecidableEq

/-- `completion.choices[0]?.message?.content || 'Unable to ...'`
(App.tsx line 97): missing or empty content falls back. -/
def readingTextOf (content : Option String) : String :=
  match content with
  | some t => if t = "" then fallbackReading else t
  | none => fallbackReading

/-- `!apiKey` (App.tsx line 42): the key environment variable is falsy
when it is absent or the empty string. -/
def apiKeyMissing : Option String → Bool
  | none => true
  | some k => k == ""

/-- What one run of `generateReading` produced: the final state, the
list of network requests issued during the run, and (if a request was
issued) the state at the moment of issuance. -/
structure SubmitResult where
  final : AppState
  requests : List ChatRequest
  atRequest : Option AppState
deriving Repr, DecidableEq

/-- `generateReading` (App.tsx lines 29-105) as a state transformer.
The guards, messages, prompt and request mirror the source line by line;
`outcome` stands for the single awaited network call. -/
def submit (s : AppState) (apiKey : Option String) (outcome : Outcome) : SubmitResult :=
  if jsTrim s.question = "" then
    { final := { s with error := questionError }, requests := [], atRequest := none }
  else if (filledCards s.cardNames).length = 0 then
    { final := { s with error := cardsError }, requests := [], atRequest := none }
  else if apiKeyMissing apiKey then
    { final := { s with error := apiKeyError }, requests := [], atRequest := none }
  else
    let s1 : AppState := { s with isLoading := true, error := "" }
    let req : ChatRequest := mkRequest (mkPrompt s.question (filledCards s.cardNames))
    match outcome with
    | Outcome.success content =>
        { final := { s1 with reading := readingTextOf content, isLoading := false }
          requests := [req]
          atRequest := some s1 }
    | Outcome.failure =>
        { final := { s1 with error := serviceError, isLoading := false }
          requests := [req]
          atRequest := some s1 }

/-- States reachable from the mount state by the component's handlers:
editing the question, picking a card count from the ten buttons (1-10),
editing a card name at a rendered (hence valid) index, and submitting. -/
inductive Reachable : AppState → Prop where
  | init : Reachable initialState
  | setQ (s : AppState) (q : String) : Reachable s → Reachable (setQuestion s q)
  | setCount (s : AppState) (n : Nat) : Reachable s → 1 ≤ n → n ≤ 10 →
      Reachable (handleNumCardsChange s n)
  | setName (s : AppState) (i : Nat) (nm : String) : Reachable s →
      i < s.cardNames.length → Reachable (handleCardNameChange s i nm)
  | doSubmit (s : AppState) (k : Option String) (o : Outcome) : Reachable s →
      Reachable (submit s k o).final

/-! ## Branch lemmas for `submit` -/

/-- With an empty trimmed question, `generateReading` stops at the first
guard: it only sets the question validation error. -/
theorem submit_of_questionEmpty (s : AppState) (k : Option String) (o : Outcome)
    (h : jsTrim s.question = "") :
    submit s k o =
      { final := { s with error := questionError }, requests := [], atRequest := none } := by
  simp [submit, h]

/-- With a non-empty question but no non-empty card name,
`generateReading` stops at the second guard. -/
theorem submit_of_noCards (s : AppState) (k : Option String) (o : Outcome)
    (hq : jsTrim s.question ≠ "") (hc : (filledCards s.cardNames).length = 0) :
    submit s k o =
      { final := { s with error := cardsError }, requests := [], atRequest := none } := by
  simp [submit, hq, hc]

/-- With both validations passed but a falsy API key, `generateReading`
stops at the configuration guard. -/
theorem submit_of_noKey (s : AppState) (k : Option String) (o : Outcome)
    (hq : jsTrim s.question ≠ "") (hc : (filledCards s.cardNames).length ≠ 0)
    (hk : apiKeyMissing k = true) :
    submit s k o =
      { final := { s with error := apiKeyError }, requests := [], atRequest := none } := by
  simp [submit, hq, hc, hk]

/-- With all guards passed and a resolving call, `generateReading` issues
the one request, clears the error, and stores the (fallback-corrected)
content as the reading; the loading flag ends false. -/
theorem submit_of_success (s : AppState) (k : Option String) (content : Option String)
    (hq : jsTrim s.question ≠ "") (hc : (filledCards s.cardNames).length ≠ 0)
    (hk : apiKeyMissing k = false) :
    submit s k (Outcome.success content) =
      { final := { s with error := "", reading := readingTextOf content, isLoading := false }
        requests := [mkRequest (mkPrompt s.question (filledCards s.cardNames))]
        atRequest := some { s with isLoading := true, error := "" } } := by
  simp [submit, hq, hc, hk]

/-- With all guards passed and a rejecting call, `generateReading` issues
the one request and the `catch`/`finally` blocks store the service error
and clear the loading flag; the reading is untouched. -/
theorem submit_of_failure (s : AppState) (k : Option String)
    (hq : jsTrim s.question ≠ "") (hc : (filledCards s.cardNames).length ≠ 0)
    (hk : apiKeyMissing k = false) :
    submit s k Outcome.failure =
      { final := { s with error := serviceError, isLoading := false }
        requests := [mkRequest (mkPrompt s.question (filledCards s.cardNames))]
        atRequest := some { s with isLoading := true, error := "" } } := by
  simp [submit, hq, hc, hk]

/-- `generateReading` never touches the question, the card count or the
card names. -/
theorem submit_preserves_form (s : AppState) (k : Option String) (o : Outcome) :
    (submit s k o).final.question = s.question ∧
    (submit s k o).final.numCards = s.numCards ∧
    (submit s k o).final.cardNames = s.cardNames := by
  by_cases hq : jsTrim s.question = ""
  · simp [submit_of_questionEmpty s k o hq]
  · by_cases hc : (filledCards s.cardNames).length = 0
    · simp [submit_of_noCards s k o hq hc]
    · cases hk : apiKeyMissing k
      · cases o with
        | failure => simp [submit_of_failure s k hq hc hk]
        | success content => simp [submit_of_success s k content hq hc hk]
      · simp [submit_of_noKey s k o hq hc hk]

/-- JavaScript `v || ''` is the identity on a present entry. -/
theorem jsOrEmpty_some (v : String) : jsOrEmpty (some v) = v := by
  by_cases h : v = "" <;> simp [jsOrEmpty, h]

/-! ## Claim theorems -/

/-- C1: whenever the trimmed question is non-empty, at least one card name
is non-empty after trimming, and the API key is present, `submit` issues
exactly one request, and its prompt is the fixed template instantiated
with the question and precisely the non-empty card names in their
original order (`filledCards` is the order-preserving filter, and
`mkPrompt` embeds the question and those names, numbered, verbatim). -/
theorem submit_issues_one_request (s : AppState) (k : Option String) (o : Outcome)
    (hq : jsTrim s.question ≠ "") (hc : filledCards s.cardNames ≠ [])
    (hk : apiKeyMissing k = false) :
    (submit s k o).requests =
      [mkRequest (mkPrompt s.question (filledCards s.cardNames))] := by
  have hc' : (filledCards s.cardNames).length ≠ 0 :=
    fun h => hc (List.length_eq_zero.mp h)
  cases o with
  | failure => simp [submit_of_failure s k hq hc' hk]
  | success content => simp [submit_of_success s k content hq hc' hk]

/-- A concrete run of C1: a two-card form with one empty slot issues one
request whose prompt is built from the question and the single non-empty
name. -/
def sampleState : AppState :=
  { question := "Will I thrive?"
    numCards := 2
    cardNames := ["The Sun", ""]
    reading := ""
    isLoading := false
    error := "" }

theorem submit_issues_one_request_witness :
    (jsTrim sampleState.question ≠ "" ∧ filledCards sampleState.cardNames ≠ [] ∧
      apiKeyMissing (some "sk-test") = false) ∧
    (submit sampleState (some "sk-test") (Outcome.success (some "All is well."))).requests =
      [mkRequest (mkPrompt sampleState.question (filledCards sampleState.cardNames))] :=
  ⟨⟨by decide, by decide, by decide⟩,
    submit_issues_one_request sampleState (some "sk-test") (Outcome.success (some "All is well."))
      (by decide) (by decide) (by decide)⟩

/-- C2: on a resolving call, a non-empty content string `t` is stored as
the reading verbatim, while missing (`none`) or empty (`some ""`) content
stores the fixed fallback placeholder. -/
theorem submit_stores_reading (s : AppState) (k : Option String) (content : Option String)
    (hq : jsTrim s.question ≠ "") (hc : filledCards s.cardNames ≠ [])
    (hk : apiKeyMissing k = false) :
    (∀ t : String, content = some t → t ≠ "" →
      (submit s k (Outcome.success content)).final.reading = t) ∧
    ((content = none ∨ content = some "") →
      (submit s k (Outcome.success content)).final.reading = fallbackReading) := by
  have hc' : (filledCards s.cardNames).length ≠ 0 :=
    fun h => hc (List.length_eq_zero.mp h)
  have hs := submit_of_success s k content hq hc' hk
  constructor
  · intro t ht hne
    subst ht
    simp [hs, readingTextOf, hne]
  · rintro (rfl | rfl) <;> simp [hs, readingTextOf]

theorem submit_stores_reading_witness :
    (jsTrim sampleState.question ≠ "" ∧ filledCards sampleState.cardNames ≠ [] ∧
      apiKeyMissing (some "sk-test") = false) ∧
    ((∀ t : String, some "All is well." = some t → t ≠ "" →
      (submit sampleState (some "sk-test") (Outcome.success (some "All is well."))).final.reading = t) ∧
    ((some "All is well." = none ∨ some "All is well." = some "") →
      (submit sampleState (some "sk-test") (Outcome.success (some "All is well."))).final.reading =
        fallbackReading)) :=
  ⟨⟨by decide, by decide, by decide⟩,
    submit_stores_reading sampleState (some "sk-test") (some "All is well.")
      (by decide) (by decide) (by decide)⟩

/-- C3: for `n` between 1 and 10, `handleNumCardsChange` resizes the card
name list to exactly `n` entries, keeps every previously existing entry at
its index, and fills indices beyond the old length with the empty
string. -/
theorem setCardCount_resizes (s : AppState) (n : Nat) (_h1 : 1 ≤ n) (_h2 : n ≤ 10) :
    (handleNumCardsChange s n).cardNames.length = n ∧
    (∀ i : Nat, i < n → i < s.cardNames.length →
      (handleNumCardsChange s n).cardNames[i]? = s.cardNames[i]?) ∧
    (∀ i : Nat, s.cardNames.length ≤ i → i < n →
      (handleNumCardsChange s n).cardNames[i]? = some "") := by
  refine ⟨by simp [handleNumCardsChange], ?_, ?_⟩
  · intro i hin hil
    simp [handleNumCardsChange, List.getElem?_range hin,
      List.getElem?_eq_getElem hil, jsOrEmpty_some]
  · intro i hle hin
    simp [handleNumCardsChange, List.getElem?_range hin,
      List.getElem?_eq_none hle, jsOrEmpty]

theorem setCardCount_resizes_witness :
    (1 ≤ 3 ∧ 3 ≤ 10) ∧
    ((handleNumCardsChange initialState 3).cardNames.length = 3 ∧
    (∀ i : Nat, i < 3 → i < initialState.cardNames.length →
      (handleNumCardsChange initialState 3).cardNames[i]? = initialState.cardNames[i]?) ∧
    (∀ i : Nat, initialState.cardNames.length ≤ i → i < 3 →
      (handleNumCardsChange initialState 3).cardNames[i]? = some "")) :=
  ⟨by decide, setCardCount_resizes initialState 3 (by decide) (by decide)⟩

/-- C4: in the initial state and in every state reachable by the
component's operations (question edits, card-count buttons 1-10, card-name
edits at valid indices, and submit runs), the card-name list has exactly
`numCards` entries. -/
theorem reachable_cardNames_length (s : AppState) (h : Reachable s) :
    s.cardNames.length = s.numCards := by
  induction h with
  | init => rfl
  | setQ s q _ ih => simpa [setQuestion] using ih
  | setCount s n _ _ _ _ => simp [handleNumCardsChange]
  | setName s i nm _ _ ih => simpa [handleCardNameChange] using ih
  | doSubmit s k o _ ih =>
      have hp := submit_preserves_form s k o
      rw [hp.2.2, hp.2.1]
      exact ih

theorem reachable_cardNames_length_witness :
    Reachable initialState ∧ initialState.cardNames.length = initialState.numCards :=
  ⟨Reachable.init, reachable_cardNames_length initialState Reachable.init⟩

/-- C5: if the trimmed question is empty, or it is non-empty but every
card name trims to empty, `submit` sets a validation error message (the
question message or the card message respectively) and issues no
request. -/
theorem submit_validation_no_request (s : AppState) (k : Option String) (o : Outcome)
    (h : jsTrim s.question = "" ∨ (jsTrim s.question ≠ "" ∧ filledCards s.cardNames = [])) :
    ((submit s k o).final.error = questionError ∨
      (submit s k o).final.error = cardsError) ∧
    (submit s k o).requests = [] := by
  rcases h with h | ⟨hq, hc⟩
  · simp [submit_of_questionEmpty s k o h]
  · simp [submit_of_noCards s k o hq (by simp [hc])]

theorem submit_validation_no_request_witness :
    (jsTrim initialState.question = "" ∨
      (jsTrim initialState.question ≠ "" ∧ filledCards initialState.cardNames = [])) ∧
    (((submit initialState none Outcome.failure).final.error = questionError ∨
      (submit initialState none Outcome.failure).final.error = cardsError) ∧
    (submit initialState none Outcome.failure).requests = []) :=
  ⟨Or.inl (by decide),
    submit_validation_no_request initialState none Outcome.failure (Or.inl (by decide))⟩

/-- C6: on a run whose network call rejects, the final state carries the
generic service-failure message, the loading flag is false, and the
reading is exactly what it was before the run. -/
theorem submit_failure_path (s : AppState) (k : Option String)
    (hq : jsTrim s.question ≠ "") (hc : filledCards s.cardNames ≠ [])
    (hk : apiKeyMissing k = false) :
    (submit s k Outcome.failure).final.error = serviceError ∧
    (submit s k Outcome.failure).final.isLoading = false ∧
    (submit s k Outcome.failure).final.reading = s.reading := by
  have hc' : (filledCards s.cardNames).length ≠ 0 :=
    fun h => hc (List.length_eq_zero.mp h)
  simp [submit_of_failure s k hq hc' hk]

theorem submit_failure_path_witness :
    (jsTrim sampleState.question ≠ "" ∧ filledCards sampleState.cardNames ≠ [] ∧
      apiKeyMissing (some "sk-test") = false) ∧
    ((submit sampleState (some "sk-test") Outcome.failure).final.error = serviceError ∧
    (submit sampleState (some "sk-test") Outcome.failure).final.isLoading = false ∧
    (submit sampleState (some "sk-test") Outcome.failure).final.reading = sampleState.reading) :=
  ⟨⟨by decide, by decide, by decide⟩,
    submit_failure_path sampleState (some "sk-test") (by decide) (by decide) (by decide)⟩

/-- C7: when both field validations pass but the API key is absent (or
empty, which the code's falsiness test also treats as absent), `submit`
sets the configuration error message and issues no request. -/
theorem submit_missing_key (s : AppState) (k : Option String) (o : Outcome)
    (hq : jsTrim s.question ≠ "") (hc : filledCards s.cardNames ≠ [])
    (hk : apiKeyMissing k = true) :
    (submit s k o).final.error = apiKeyError ∧ (submit s k o).requests = [] := by
  have hc' : (filledCards s.cardNames).length ≠ 0 :=
    fun h => hc (List.length_eq_zero.mp h)
  simp [submit_of_noKey s k o hq hc' hk]

theorem submit_missing_key_witness :
    (jsTrim sampleState.question ≠ "" ∧ filledCards sampleState.cardNames ≠ [] ∧
      apiKeyMissing none = true) ∧
    ((submit sampleState none Outcome.failure).final.error = apiKeyError ∧
    (submit sampleState none Outcome.failure).requests = []) :=
  ⟨⟨by decide, by decide, by decide⟩,
    submit_missing_key sampleState none Outcome.failure (by decide) (by decide) (by decide)⟩

/-- A reachable state holding a successful reading: the user fills in the
question and the single card slot, submits, and the call resolves. -/
def afterSuccessState : AppState :=
  (submit (handleCardNameChange (setQuestion initialState "Will it rain tomorrow?") 0 "The Tower")
    (some "sk-live") (Outcome.success (some "Storms ahead."))).final

/-- The user then clears the question and submits again: validation sets
an error while the previous reading is still stored. -/
def clashState : AppState :=
  (submit (setQuestion afterSuccessState "") (some "sk-live") Outcome.failure).final

/-- C8 counterexample: mutual exclusion of the reading and the error fails
on a reachable state.  After a successful reading, clearing the question
and submitting again sets the validation error without clearing the
stored reading, so both fields are non-empty at once. -/
theorem reading_error_not_exclusive :
    Reachable clashState ∧ clashState.reading ≠ "" ∧ clashState.error ≠ "" := by
  refine ⟨?_, by decide, by decide⟩
  show Reachable (submit (setQuestion afterSuccessState "") (some "sk-live")
    Outcome.failure).final
  refine Reachable.doSubmit _ _ _ (Reachable.setQ _ _ ?_)
  show Reachable (submit
    (handleCardNameChange (setQuestion initialState "Will it rain tomorrow?") 0 "The Tower")
    (some "sk-live") (Outcome.success (some "Storms ahead."))).final
  exact Reachable.doSubmit _ _ _
    (Reachable.setName _ _ _ (Reachable.setQ _ _ Reachable.init) (by decide))

/-- C8 (amended): the reading and the error message are both empty in the
initial state, and a single `submit` run started from a state whose
reading is empty never leaves both fields non-empty (a successful run
clears the error, every other run leaves the reading empty). -/
theorem reading_error_exclusive_from_empty (s : AppState) (k : Option String) (o : Outcome)
    (h : s.reading = "") :
    initialState.reading = "" ∧ initialState.error = "" ∧
    ¬((submit s k o).final.reading ≠ "" ∧ (submit s k o).final.error ≠ "") := by
  refine ⟨rfl, rfl, ?_⟩
  by_cases hq : jsTrim s.question = ""
  · simp [submit_of_questionEmpty s k o hq, h]
  · by_cases hc : (filledCards s.cardNames).length = 0
    · simp [submit_of_noCards s k o hq hc, h]
    · cases hk : apiKeyMissing k
      · cases o with
        | failure => simp [submit_of_failure s k hq hc hk, h]
        | success content => simp [submit_of_success s k content hq hc hk]
      · simp [submit_of_noKey s k o hq hc hk, h]

theorem reading_error_exclusive_from_empty_witness :
    initialState.reading = "" ∧
    (initialState.reading = "" ∧ initialState.error = "" ∧
      ¬((submit initialState none Outcome.failure).final.reading ≠ "" ∧
        (submit initialState none Outcome.failure).final.error ≠ "")) :=
  ⟨rfl, reading_error_exclusive_from_empty initialState none Outcome.failure rfl⟩

/-- C9: the loading flag is false at mount; a `submit` run that issues no
request leaves it untouched; the state at the moment the request is
issued has it true; and it is false again when the run completes, on the
success path and on the failure path alike. -/
theorem loading_flag_behaviour (s : AppState) (k : Option String) (o : Outcome)
    (h : s.isLoading = false) :
    initialState.isLoading = false ∧
    ((submit s k o).requests = [] → (submit s k o).final.isLoading = s.isLoading) ∧
    (∀ st : AppState, (submit s k o).atRequest = some st → st.isLoading = true) ∧
    (submit s k o).final.isLoading = false := by
  by_cases hq : jsTrim s.question = ""
  · simp [submit_of_questionEmpty s k o hq, initialState, h]
  · by_cases hc : (filledCards s.cardNames).length = 0
    · simp [submit_of_noCards s k o hq hc, initialState, h]
    · cases hk : apiKeyMissing k
      · cases o with
        | failure => simp [submit_of_failure s k hq hc hk, initialState]
        | success content => simp [submit_of_success s k content hq hc hk, initialState]
      · simp [submit_of_noKey s k o hq hc hk, initialState, h]

theorem loading_flag_behaviour_witness :
    sampleState.isLoading = false ∧
    (initialState.isLoading = false ∧
    ((submit sampleState (some "sk-test") Outcome.failure).requests = [] →
      (submit sampleState (some "sk-test") Outcome.failure).final.isLoading =
        sampleState.isLoading) ∧
    (∀ st : AppState,
      (submit sampleState (some "sk-test") Outcome.failure).atRequest = some st →
        st.isLoading = true) ∧
    (submit sampleState (some "sk-test") Outcome.failure).final.isLoading = false) :=
  ⟨rfl, loading_flag_behaviour sampleState (some "sk-test") Outcome.failure rfl⟩

/-- C10: the guards of `generateReading` fire in source order — empty
question, then no non-empty card name, then missing key — and only the
first applicable message is stored; in particular an empty question wins
over a missing key, whatever the key is. -/
theorem submit_error_priority (s : AppState) (k : Option String) (o : Outcome) :
    (jsTrim s.question = "" →
      (submit s k o).final.error = questionError ∧ (submit s k o).requests = []) ∧
    (jsTrim s.question ≠ "" → filledCards s.cardNames = [] →
      (submit s k o).final.error = cardsError ∧ (submit s k o).requests = []) ∧
    (jsTrim s.question ≠ "" → filledCards s.cardNames ≠ [] → apiKeyMissing k = true →
      (submit s k o).final.error = apiKeyError ∧ (submit s k o).requests = []) := by
  refine ⟨?_, ?_, ?_⟩
  · intro hq
    simp [submit_of_questionEmpty s k o hq]
  · intro hq hc
    simp [submit_of_noCards s k o hq (by simp [hc])]
  · intro hq hc hk
    have hc' : (filledCards s.cardNames).length ≠ 0 :=
      fun hz => hc (List.length_eq_zero.mp hz)
    simp [submit_of_noKey s k o hq hc' hk]

theorem submit_error_priority_witness :
    (jsTrim initialState.question = "" ∧ apiKeyMissing none = true) ∧
    ((submit initialState none Outcome.failure).final.error = questionError ∧
      (submit initialState none Outcome.failure).requests = []) :=
  ⟨⟨by decide, by decide⟩,
    (submit_error_priority initialState none Outcome.failure).1 (by decide)⟩

end TarotApp
